import Mathlib

/-!
Shallow embedding of the OCCO basic infrastructure processor
(src/occo/plugins/infraprocessor/basic_infraprocessor.py) and of the
mysql_server readiness strategy
(src/occo/infraprocessor/synchronization/mysql.py).

Collaborator calls (service composer, cloud handler, user data store,
information broker, node resolution, synchronization engine, event log) are
external to the repository; each call site is modelled by an oracle field of
type Except PyExn alpha giving the outcome of that call in the execution under
consideration.  An execution of a perform method is a pure function of the
oracle, returning the Python-level outcome (normal return or raised
exception), the ordered list of collaborator invocations (the event trace of
that execution), and the resulting service-composer membership state.

The service-composer membership state follows DummyServiceComposer in
src/occo_test/common.py: register_node appends the registered node id under
its infrastructure id; drop_node removes every entry with the dropped node id
from that infrastructure.  A collaborator call that raises is modelled as
leaving the membership unchanged.
-/

/-- NodeDescription (spec section 3): name, owning infrastructure id and
owning user id; CreateNode.perform reads exactly these three keys. -/
structure NodeDescription where
  name : String
  infra_id : String
  user_id : String
deriving DecidableEq

/-- ResolvedNodeDefinition. Modelled from the spec: node resolution is an
external collaborator (occo.infraprocessor.node_resolution is not part of the
shown sources); per spec section 3 the resolved definition is the description
enriched with a concrete backend id and a creation timeout, and it carries the
node and infrastructure identity used by the service composer registration. -/
structure ResolvedNodeDefinition where
  node_id : String
  infra_id : String
  backend_id : String
  create_timeout : Nat
deriving DecidableEq

/-- InstanceData as assembled by CreateNode.perform: the dict literal built at
lines 103-108 of basic_infraprocessor.py plus the three fields added by
_perform_create (resolved_node_definition, backend_id at lines 158-159 and
instance_id at line 164), which are absent (none) until assigned. -/
structure InstanceData where
  node_id : String
  infra_id : String
  user_id : String
  node_description : NodeDescription
  resolved_node_definition : Option ResolvedNodeDefinition := none
  backend_id : Option String := none
  instance_id : Option String := none
deriving DecidableEq

/-- Python exception values observable by the handler chains of
basic_infraprocessor.py.  The orchestration hierarchy
(occo.exceptions.orchestration) is not among the shown sources; it is
modelled from spec section 7: NodeCreationError, InfrastructureCreationError
and MinorInfraProcessorError are pre-classified orchestration errors
(InfraProcessorError subclasses); otherIPError stands for any further
InfraProcessorError subclass (e.g. NodeCreationTimeout); keyboardInterrupt is
a BaseException that `except Exception` does not catch; otherExc is any
uncategorized Exception; mysqlError is MySQLdb.Error and keyError is KeyError
(both uncategorized Exceptions), used by the mysql strategy model. -/
inductive PyExn where
  | keyboardInterrupt
  | nodeCreationError (instance_data : Option InstanceData) (cause : PyExn)
  | infrastructureCreationError (infra_id : String) (cause : PyExn)
  | minorInfraProcessorError (infra_id : String) (cause : PyExn)
      (instance_data : Option InstanceData)
  | otherIPError (tag : Nat)
  | mysqlError (tag : Nat)
  | keyError (key : String)
  | otherExc (tag : Nat)
deriving DecidableEq

deriving instance DecidableEq for Except

/-- Membership in the InfraProcessorError branch of the exception hierarchy
(modelled from spec section 7). -/
def PyExn.isInfraProcessorError : PyExn → Bool
  | .nodeCreationError _ _ => true
  | .infrastructureCreationError _ _ => true
  | .minorInfraProcessorError _ _ _ => true
  | .otherIPError _ => true
  | _ => false

/-- Membership in MySQLdb.Error, the class caught by the mysql strategy. -/
def PyExn.isMysqlError : PyExn → Bool
  | .mysqlError _ => true
  | _ => false

/-- Service-composer membership state: one (infra_id, node_id) entry per
registered node, following DummyServiceComposer in occo_test/common.py. -/
abbrev Composer := List (String × String)

/-- register_node of DummyServiceComposer: append the node under its
infrastructure. -/
def registerC (c : Composer) (infra node : String) : Composer :=
  c ++ [(infra, node)]

/-- drop_node of DummyServiceComposer: remove every entry with this node id
from this infrastructure. -/
def deregisterC (c : Composer) (infra node : String) : Composer :=
  c.filter (fun p => !(p.1 == infra && p.2 == node))

/-- The composer-recorded membership of one infrastructure: the node ids
registered under it, in registration order. -/
def membership (c : Composer) (infra : String) : List String :=
  (c.filter (fun p => p.1 == infra)).map Prod.snd

/-- One collaborator invocation, as recorded in an execution trace. -/
inductive Ev where
  | resolveNode (node_id : String)
  | scRegisterNode (infra node : String)
  | chCreateNode (node : String)
  | udsRegisterStartedNode (infra name : String)
  | ibGetResourceAddr
  | ibGetResourceIp
  | waitForNode (node : String)
  | evNodeCreated (node : String)
  | undoCreateNode (instance_data : InstanceData)
  | chDropNode (node : String)
  | scDropNode (node : String)
  | evNodeDeleted (node : String)
  | scCreateInfrastructure (infra : String)
  | evInfraCreated (infra : String)
  | undoCreateInfra (infra : String)
  | scDropInfrastructure (infra : String)
  | evInfraDeleted (infra : String)
deriving DecidableEq

/-- Oracle for one execution: the outcome of each collaborator call site of
basic_infraprocessor.py, plus the uuid4 value generated at line 104.  A field
of value .error e means that call raises e; .ok v means it returns v. -/
structure Env where
  resolve_node : Except PyExn ResolvedNodeDefinition
  sc_register_node : Except PyExn Unit
  ch_create_node : Except PyExn String
  uds_register_started_node : Except PyExn Unit
  ib_get_address : Except PyExn String
  ib_get_ip : Except PyExn String
  wait_for_node : Except PyExn Unit
  ev_node_created : Except PyExn Unit
  ch_drop_node : Except PyExn Unit
  sc_drop_node : Except PyExn Unit
  ev_node_deleted : Except PyExn Unit
  sc_create_infrastructure : Except PyExn String
  ev_infrastructure_created : Except PyExn Unit
  sc_drop_infrastructure : Except PyExn Unit
  ev_infrastructure_deleted : Except PyExn Unit
  fresh_node_id : String

/-- The error transform of the shared drop handler chain
(DropNode.perform lines 232-246, DropInfrastructure.perform lines 264-274):
KeyboardInterrupt and InfraProcessorError re-raise unchanged, anything else is
wrapped as MinorInfraProcessorError(infra_id, cause, instance_data). -/
def dropWrap (infra : String) (idata : Option InstanceData) (e : PyExn) :
    PyExn :=
  if e = .keyboardInterrupt then e
  else if e.isInfraProcessorError then e
  else .minorInfraProcessorError infra e idata

/-- DropNode.perform (lines 226-246): cloud-handler drop, then composer drop,
then node-deleted event; the composer deregistration takes effect when the
composer call returns. -/
def DropNode.perform (env : Env) (i : InstanceData) (c : Composer) :
    Except PyExn Unit × List Ev × Composer :=
  match env.ch_drop_node with
  | .error e =>
      (.error (dropWrap i.infra_id (some i) e), [.chDropNode i.node_id], c)
  | .ok _ =>
    match env.sc_drop_node with
    | .error e =>
        (.error (dropWrap i.infra_id (some i) e),
         [.chDropNode i.node_id, .scDropNode i.node_id], c)
    | .ok _ =>
      let c1 := deregisterC c i.infra_id i.node_id
      match env.ev_node_deleted with
      | .error e =>
          (.error (dropWrap i.infra_id (some i) e),
           [.chDropNode i.node_id, .scDropNode i.node_id,
            .evNodeDeleted i.node_id], c1)
      | .ok _ =>
          (.ok (),
           [.chDropNode i.node_id, .scDropNode i.node_id,
            .evNodeDeleted i.node_id], c1)

/-- DropInfrastructure.perform (lines 259-274): composer drop-infrastructure,
then infrastructure-deleted event; same handler chain as DropNode with no
instance data attached to the wrap. -/
def DropInfrastructure.perform (env : Env) (infra : String) (c : Composer) :
    Except PyExn Unit × List Ev × Composer :=
  match env.sc_drop_infrastructure with
  | .error e =>
      (.error (dropWrap infra none e), [.scDropInfrastructure infra], c)
  | .ok _ =>
    match env.ev_infrastructure_deleted with
    | .error e =>
        (.error (dropWrap infra none e),
         [.scDropInfrastructure infra, .evInfraDeleted infra], c)
    | .ok _ =>
        (.ok (), [.scDropInfrastructure infra, .evInfraDeleted infra], c)

/-- CreateNode._undo_create_node (lines 198-210): build a DropNode command on
the accumulated instance data and perform it, discarding its outcome (the
`except Exception` swallows ordinary errors; a KeyboardInterrupt raised by the
inner perform would itself propagate, which is observationally the same
cancellation the enclosing handler re-raises). -/
def CreateNode.undo_create_node (env : Env) (i : InstanceData) (c : Composer) :
    List Ev × Composer :=
  let r := DropNode.perform env i c
  (Ev.undoCreateNode i :: r.2.1, r.2.2)

/-- The error transform of CreateNode.perform handlers other than
KeyboardInterrupt (lines 120-132): a NodeCreationError with empty
instance_data is amended with the accumulated instance data; any other
pre-classified InfraProcessorError re-raises unchanged; anything else is
wrapped as NodeCreationError(instance_data, cause). -/
def amendNode (e : PyExn) (i : InstanceData) : PyExn :=
  match e with
  | .nodeCreationError none cause => .nodeCreationError (some i) cause
  | .nodeCreationError (some d) cause => .nodeCreationError (some d) cause
  | e => if e.isInfraProcessorError then e else .nodeCreationError (some i) e

/-- The full handler chain of CreateNode.perform (lines 115-132):
KeyboardInterrupt triggers _undo_create_node and re-raises; everything else
follows amendNode without compensation. -/
def CreateNode.handle (env : Env) (e : PyExn) (i : InstanceData)
    (c : Composer) : Except PyExn InstanceData × List Ev × Composer :=
  if e = .keyboardInterrupt then
    let u := CreateNode.undo_create_node env i c
    (.error .keyboardInterrupt, u.1, u.2)
  else
    (.error (amendNode e i), [], c)

/-- The InstanceData dict as built at lines 103-108: fresh node id,
infra id and user id copied from the description, the description itself. -/
def initInstance (env : Env) (nd : NodeDescription) : InstanceData :=
  { node_id := env.fresh_node_id
    infra_id := nd.infra_id
    user_id := nd.user_id
    node_description := nd }

/-- CreateNode._perform_create (lines 140-196): resolve, mutate instance data
with the resolved definition and backend id, register with the service
composer, create via the cloud handler, record the instance id, persist via
the user data store, evaluate the two info-broker address lookups (arguments
of the log call at lines 183-190, evaluated eagerly), then wait for
readiness.  Returns the outcome, the instance data as mutated so far (the
same dict object the caller holds), the trace, and the composer state. -/
def CreateNode.perform_create (env : Env) (nd : NodeDescription)
    (c : Composer) :
    Except PyExn InstanceData × InstanceData × List Ev × Composer :=
  let i0 := initInstance env nd
  match env.resolve_node with
  | .error e => (.error e, i0, [.resolveNode i0.node_id], c)
  | .ok rdef =>
    let i1 := { i0 with
      resolved_node_definition := some rdef
      backend_id := some rdef.backend_id }
    match env.sc_register_node with
    | .error e =>
        (.error e, i1,
         [.resolveNode i0.node_id,
          .scRegisterNode rdef.infra_id rdef.node_id], c)
    | .ok _ =>
      let c1 := registerC c rdef.infra_id rdef.node_id
      match env.ch_create_node with
      | .error e =>
          (.error e, i1,
           [.resolveNode i0.node_id,
            .scRegisterNode rdef.infra_id rdef.node_id,
            .chCreateNode i1.node_id], c1)
      | .ok iid =>
        let i2 := { i1 with instance_id := some iid }
        match env.uds_register_started_node with
        | .error e =>
            (.error e, i2,
             [.resolveNode i0.node_id,
              .scRegisterNode rdef.infra_id rdef.node_id,
              .chCreateNode i1.node_id,
              .udsRegisterStartedNode nd.infra_id nd.name], c1)
        | .ok _ =>
          match env.ib_get_address with
          | .error e =>
              (.error e, i2,
               [.resolveNode i0.node_id,
                .scRegisterNode rdef.infra_id rdef.node_id,
                .chCreateNode i1.node_id,
                .udsRegisterStartedNode nd.infra_id nd.name,
                .ibGetResourceAddr], c1)
          | .ok _ =>
            match env.ib_get_ip with
            | .error e =>
                (.error e, i2,
                 [.resolveNode i0.node_id,
                  .scRegisterNode rdef.infra_id rdef.node_id,
                  .chCreateNode i1.node_id,
                  .udsRegisterStartedNode nd.infra_id nd.name,
                  .ibGetResourceAddr, .ibGetResourceIp], c1)
            | .ok _ =>
              match env.wait_for_node with
              | .error e =>
                  (.error e, i2,
                   [.resolveNode i0.node_id,
                    .scRegisterNode rdef.infra_id rdef.node_id,
                    .chCreateNode i1.node_id,
                    .udsRegisterStartedNode nd.infra_id nd.name,
                    .ibGetResourceAddr, .ibGetResourceIp,
                    .waitForNode i2.node_id], c1)
              | .ok _ =>
                  (.ok i2, i2,
                   [.resolveNode i0.node_id,
                    .scRegisterNode rdef.infra_id rdef.node_id,
                    .chCreateNode i1.node_id,
                    .udsRegisterStartedNode nd.infra_id nd.name,
                    .ibGetResourceAddr, .ibGetResourceIp,
                    .waitForNode i2.node_id], c1)

/-- CreateNode.perform (lines 96-138): run _perform_create, then the
node-created event (still inside the try block), dispatching any raised
exception to the handler chain with the instance data as mutated so far. -/
def CreateNode.perform (env : Env) (nd : NodeDescription) (c : Composer) :
    Except PyExn InstanceData × List Ev × Composer :=
  let core := CreateNode.perform_create env nd c
  match core.1 with
  | .ok i =>
    match env.ev_node_created with
    | .ok _ => (.ok i, core.2.2.1 ++ [.evNodeCreated i.node_id], core.2.2.2)
    | .error e =>
      let h := CreateNode.handle env e i core.2.2.2
      (h.1, core.2.2.1 ++ .evNodeCreated i.node_id :: h.2.1, h.2.2)
  | .error e =>
    let h := CreateNode.handle env e core.2.1 core.2.2.2
    (h.1, core.2.2.1 ++ h.2.1, h.2.2)

/-- CreateInfrastructure._undo_create_infra (lines 68-80): build a
DropInfrastructure command and perform it, discarding its outcome. -/
def CreateInfrastructure.undo_create_infra (env : Env) (infra : String)
    (c : Composer) : List Ev × Composer :=
  let r := DropInfrastructure.perform env infra c
  (Ev.undoCreateInfra infra :: r.2.1, r.2.2)

/-- The handler chain of CreateInfrastructure.perform (lines 52-64):
KeyboardInterrupt triggers _undo_create_infra and re-raises;
InfraProcessorError re-raises unchanged; anything else is wrapped as
InfrastructureCreationError(infra_id, cause). -/
def CreateInfrastructure.handle (env : Env) (infra : String) (e : PyExn)
    (c : Composer) : Except PyExn String × List Ev × Composer :=
  if e = .keyboardInterrupt then
    let u := CreateInfrastructure.undo_create_infra env infra c
    (.error .keyboardInterrupt, u.1, u.2)
  else if e.isInfraProcessorError then (.error e, [], c)
  else (.error (.infrastructureCreationError infra e), [], c)

/-- CreateInfrastructure.perform (lines 46-66): composer
create_infrastructure, then the infrastructure-created event (inside the try
block), then return the composer result. -/
def CreateInfrastructure.perform (env : Env) (infra : String) (c : Composer) :
    Except PyExn String × List Ev × Composer :=
  match env.sc_create_infrastructure with
  | .error e =>
    let h := CreateInfrastructure.handle env infra e c
    (h.1, .scCreateInfrastructure infra :: h.2.1, h.2.2)
  | .ok result =>
    match env.ev_infrastructure_created with
    | .ok _ =>
        (.ok result, [.scCreateInfrastructure infra, .evInfraCreated infra], c)
    | .error e =>
      let h := CreateInfrastructure.handle env infra e c
      (h.1,
       .scCreateInfrastructure infra :: .evInfraCreated infra :: h.2.1,
       h.2.2)

/-- A command object of the processor: one constructor per lifecycle
operation, holding exactly the constructor argument (basic_infraprocessor.py
lines 42-44, 92-94, 222-224, 255-257; the base Command constructor is
modelled from the spec: it binds no collaborator). -/
inductive Command where
  | createInfrastructure (infra_id : String)
  | createNode (node_description : NodeDescription)
  | dropNode (instance_data : InstanceData)
  | dropInfrastructure (infra_id : String)
deriving DecidableEq

/-- BasicInfraProcessor.cri_create_infrastructure (lines 318-319), paired
with the collaborator invocations made during construction (none). -/
def BasicInfraProcessor.cri_create_infrastructure (infra_id : String) :
    Command × List Ev :=
  (Command.createInfrastructure infra_id, [])

/-- BasicInfraProcessor.cri_create_node (lines 321-322). -/
def BasicInfraProcessor.cri_create_node (node_description : NodeDescription) :
    Command × List Ev :=
  (Command.createNode node_description, [])

/-- BasicInfraProcessor.cri_drop_node (lines 324-325). -/
def BasicInfraProcessor.cri_drop_node (instance_data : InstanceData) :
    Command × List Ev :=
  (Command.dropNode instance_data, [])

/-- BasicInfraProcessor.cri_drop_infrastructure (lines 327-328). -/
def BasicInfraProcessor.cri_drop_infrastructure (infra_id : String) :
    Command × List Ev :=
  (Command.dropInfrastructure infra_id, [])

/-- Result of performing a command, per variant. -/
inductive CmdResult where
  | infraResult (r : String)
  | nodeResult (i : InstanceData)
  | unitResult
deriving DecidableEq

/-- Dispatch of Command.perform: collaborators are reached only here, when a
constructed command is performed against the processor. -/
def Command.perform (cmd : Command) (env : Env) (c : Composer) :
    Except PyExn CmdResult × List Ev × Composer :=
  match cmd with
  | .createInfrastructure infra =>
    let r := CreateInfrastructure.perform env infra c
    (r.1.map CmdResult.infraResult, r.2.1, r.2.2)
  | .createNode nd =>
    let r := CreateNode.perform env nd c
    (r.1.map CmdResult.nodeResult, r.2.1, r.2.2)
  | .dropNode i =>
    let r := DropNode.perform env i c
    (r.1.map (fun _ => CmdResult.unitResult), r.2.1, r.2.2)
  | .dropInfrastructure infra =>
    let r := DropInfrastructure.perform env infra c
    (r.1.map (fun _ => CmdResult.unitResult), r.2.1, r.2.2)

/-- The exception escaping the try block of CreateNode.perform, if any: the
first failing outcome among the steps of _perform_create followed by the
node-created event, in program order. -/
def firstOutcome (env : Env) : Option PyExn :=
  match env.resolve_node with
  | .error e => some e
  | .ok _ =>
  match env.sc_register_node with
  | .error e => some e
  | .ok _ =>
  match env.ch_create_node with
  | .error e => some e
  | .ok _ =>
  match env.uds_register_started_node with
  | .error e => some e
  | .ok _ =>
  match env.ib_get_address with
  | .error e => some e
  | .ok _ =>
  match env.ib_get_ip with
  | .error e => some e
  | .ok _ =>
  match env.wait_for_node with
  | .error e => some e
  | .ok _ =>
  match env.ev_node_created with
  | .error e => some e
  | .ok _ => none

/-- The exception escaping the try block of CreateInfrastructure.perform,
if any. -/
def firstInfraOutcome (env : Env) : Option PyExn :=
  match env.sc_create_infrastructure with
  | .error e => some e
  | .ok _ =>
  match env.ev_infrastructure_created with
  | .error e => some e
  | .ok _ => none

/-- The exception escaping the try block of DropNode.perform, if any. -/
def dropFirstOutcome (env : Env) : Option PyExn :=
  match env.ch_drop_node with
  | .error e => some e
  | .ok _ =>
  match env.sc_drop_node with
  | .error e => some e
  | .ok _ =>
  match env.ev_node_deleted with
  | .error e => some e
  | .ok _ => none

/-- The value of a successful outcome, if any. -/
def okOption {α : Type} (x : Except PyExn α) : Option α :=
  match x with
  | .ok v => some v
  | .error _ => none

/-- Oracle for one evaluation of MysqlServerSynchStragegy.is_ready
(mysql.py lines 31-49): outcomes of the two info-broker lookups, presence of
the three configuration keys under node_description.variables (none models a
KeyError), and outcomes of MySQLdb.connect and of db.close. -/
structure MysqlEnv where
  node_address : Except PyExn String
  node_reachable : Except PyExn Bool
  var_username : Option String
  var_password : Option String
  var_dbname : Option String
  connect : Except PyExn Unit
  close : Except PyExn Unit

/-- The body of the try block at mysql.py lines 37-45: evaluate the three
configuration lookups (a missing key raises KeyError), connect, close. -/
def mysqlTryBody (env : MysqlEnv) : Except PyExn Unit :=
  match env.var_username with
  | none => .error (.keyError "mysql_dbuser_username")
  | some _ =>
  match env.var_password with
  | none => .error (.keyError "mysql_dbuser_password")
  | some _ =>
  match env.var_dbname with
  | none => .error (.keyError "mysql_database_name")
  | some _ =>
  match env.connect with
  | .error e => .error e
  | .ok _ =>
  match env.close with
  | .error e => .error e
  | .ok _ => .ok ()

/-- MysqlServerSynchStragegy.is_ready (mysql.py lines 31-49): look up the
node address, check reachability, then probe the database, catching exactly
MySQLdb.Error as not-yet-ready. -/
def MysqlServerSynchStragegy.is_ready (env : MysqlEnv) :
    Except PyExn Bool :=
  match env.node_address with
  | .error e => .error e
  | .ok _ =>
  match env.node_reachable with
  | .error e => .error e
  | .ok r =>
    if !r then .ok false
    else
      match mysqlTryBody env with
      | .ok _ => .ok true
      | .error e => if e.isMysqlError then .ok false else .error e

/-- A concrete node description used by witnesses. -/
def ndD : NodeDescription := { name := "node", infra_id := "I", user_id := "U" }

/-- A concrete resolved definition consistent with ndD and the generated
node id of envAllOk. -/
def rdefD : ResolvedNodeDefinition :=
  { node_id := "N", infra_id := "I", backend_id := "B", create_timeout := 5 }

/-- An oracle in which every collaborator call succeeds. -/
def envAllOk : Env :=
  { resolve_node := .ok rdefD
    sc_register_node := .ok ()
    ch_create_node := .ok "VM1"
    uds_register_started_node := .ok ()
    ib_get_address := .ok "addr"
    ib_get_ip := .ok "ip"
    wait_for_node := .ok ()
    ev_node_created := .ok ()
    ch_drop_node := .ok ()
    sc_drop_node := .ok ()
    ev_node_deleted := .ok ()
    sc_create_infrastructure := .ok "R"
    ev_infrastructure_created := .ok ()
    sc_drop_infrastructure := .ok ()
    ev_infrastructure_deleted := .ok ()
    fresh_node_id := "N" }

/-- Every event of a DropNode.perform trace is one of its three collaborator
calls: the drop command performs no compensating action of its own. -/
lemma dropNode_events (env : Env) (i : InstanceData) (c : Composer) :
    ∀ ev ∈ (DropNode.perform env i c).2.1,
      ev = Ev.chDropNode i.node_id ∨ ev = Ev.scDropNode i.node_id ∨
      ev = Ev.evNodeDeleted i.node_id := by
  rcases h1 : env.ch_drop_node with e1 | u1 <;>
    rcases h2 : env.sc_drop_node with e2 | u2 <;>
    rcases h3 : env.ev_node_deleted with e3 | u3 <;>
    simp [DropNode.perform, h1, h2, h3]

/-- The trace of DropNode.perform starts with the cloud-handler drop call. -/
lemma dropNode_events_head (env : Env) (i : InstanceData) (c : Composer) :
    ∃ t, (DropNode.perform env i c).2.1 = Ev.chDropNode i.node_id :: t := by
  rcases h1 : env.ch_drop_node with e1 | u1 <;>
    rcases h2 : env.sc_drop_node with e2 | u2 <;>
    rcases h3 : env.ev_node_deleted with e3 | u3 <;>
    simp [DropNode.perform, h1, h2, h3]

/-- The handler of CreateNode.perform on a KeyboardInterrupt: compensate,
then re-raise the cancellation. -/
lemma createNode_handle_ki (env : Env) (i : InstanceData) (c : Composer) :
    CreateNode.handle env PyExn.keyboardInterrupt i c =
      (.error .keyboardInterrupt, (CreateNode.undo_create_node env i c).1,
       (CreateNode.undo_create_node env i c).2) := by
  simp [CreateNode.handle]

/-- The handler of CreateNode.perform on anything but a KeyboardInterrupt:
no compensation, error transformed by amendNode. -/
lemma createNode_handle_not_ki (env : Env) (e : PyExn) (i : InstanceData)
    (c : Composer) (h : e ≠ PyExn.keyboardInterrupt) :
    CreateNode.handle env e i c = (.error (amendNode e i), [], c) := by
  simp [CreateNode.handle, h]

/-- amendNode wraps any error outside the InfraProcessorError hierarchy. -/
lemma amendNode_of_not_ipe (e : PyExn) (i : InstanceData)
    (h : e.isInfraProcessorError = false) :
    amendNode e i = .nodeCreationError (some i) e := by
  cases e <;> simp_all [amendNode, PyExn.isInfraProcessorError]

/-- Registering a node appends it to its infrastructure membership. -/
lemma membership_registerC (c : Composer) (infra node : String) :
    membership (registerC c infra node) infra = membership c infra ++ [node] := by
  simp [membership, registerC, List.filter_append]

/-- Deregistering a freshly registered node restores the composer state. -/
lemma deregisterC_registerC_fresh (c : Composer) (infra node : String)
    (h : ∀ p ∈ c, ¬(p.1 = infra ∧ p.2 = node)) :
    deregisterC (registerC c infra node) infra node = c := by
  induction c with
  | nil => simp [deregisterC, registerC]
  | cons a t ih =>
    have ha := h a (List.mem_cons_self a t)
    have hb : (!(a.1 == infra && a.2 == node)) = true := by
      by_cases h1 : a.1 = infra
      · by_cases h2 : a.2 = node
        · exact absurd ⟨h1, h2⟩ ha
        · simp [h2]
      · simp [h1]
    have iht := ih (fun p hp => h p (List.mem_cons_of_mem a hp))
    simp only [deregisterC, registerC] at iht ⊢
    simp only [List.cons_append, List.filter_cons, hb, if_true]
    rw [iht]

/-- Every event of an _undo_create_node trace is the undo marker or one of
the three DropNode collaborator calls. -/
lemma undo_events (env : Env) (i : InstanceData) (c : Composer) :
    ∀ ev ∈ (CreateNode.undo_create_node env i c).1,
      ev = Ev.undoCreateNode i ∨ ev = Ev.chDropNode i.node_id ∨
      ev = Ev.scDropNode i.node_id ∨ ev = Ev.evNodeDeleted i.node_id := by
  intro ev hev
  simp only [CreateNode.undo_create_node, List.mem_cons] at hev
  rcases hev with hev | hev
  · exact Or.inl hev
  · rcases dropNode_events env i c ev hev with h | h | h
    exacts [Or.inr (Or.inl h), Or.inr (Or.inr (Or.inl h)),
            Or.inr (Or.inr (Or.inr h))]

/-- The persistence call never occurs during compensation. -/
lemma uds_not_mem_undo (env : Env) (i : InstanceData) (c : Composer)
    (inf nm : String) :
    Ev.udsRegisterStartedNode inf nm ∉ (CreateNode.undo_create_node env i c).1 := by
  intro hm
  rcases undo_events env i c _ hm with h | h | h | h <;> exact Ev.noConfusion h

/-- The readiness wait never occurs during compensation. -/
lemma wait_not_mem_undo (env : Env) (i : InstanceData) (c : Composer)
    (nid : String) :
    Ev.waitForNode nid ∉ (CreateNode.undo_create_node env i c).1 := by
  intro hm
  rcases undo_events env i c _ hm with h | h | h | h <;> exact Ev.noConfusion h

/-- The cloud-handler drop is always the first compensation step attempted. -/
lemma chDrop_mem_dropNode (env : Env) (i : InstanceData) (c : Composer) :
    Ev.chDropNode i.node_id ∈ (DropNode.perform env i c).2.1 := by
  rcases h1 : env.ch_drop_node with e1 | u1 <;>
    rcases h2 : env.sc_drop_node with e2 | u2 <;>
    rcases h3 : env.ev_node_deleted with e3 | u3 <;>
    simp [DropNode.perform, h1, h2, h3]

/-- Master lemma: if the first exception escaping the try block of
CreateNode.perform is not a KeyboardInterrupt, then perform raises exactly
the amendNode transform of that exception applied to the instance data
accumulated up to the failure point. -/
lemma createNode_error_of_firstOutcome (env : Env) (nd : NodeDescription)
    (c : Composer) (e : PyExn) (h : firstOutcome env = some e)
    (hki : e ≠ PyExn.keyboardInterrupt) :
    ∃ i, (CreateNode.perform env nd c).1 = .error (amendNode e i) ∧
      i.node_id = env.fresh_node_id ∧ i.infra_id = nd.infra_id ∧
      i.user_id = nd.user_id ∧ i.node_description = nd := by
  rcases h1 : env.resolve_node with e1 | rdef
  · simp only [firstOutcome, h1, Option.some.injEq] at h
    subst h
    refine ⟨initInstance env nd, ?_, rfl, rfl, rfl, rfl⟩
    simp [CreateNode.perform, CreateNode.perform_create, h1,
          CreateNode.handle, hki]
  · rcases h2 : env.sc_register_node with e2 | u2
    · simp only [firstOutcome, h1, h2, Option.some.injEq] at h
      subst h
      refine ⟨{ initInstance env nd with
        resolved_node_definition := some rdef,
        backend_id := some rdef.backend_id }, ?_, rfl, rfl, rfl, rfl⟩
      simp [CreateNode.perform, CreateNode.perform_create, h1, h2,
            CreateNode.handle, hki]
    · rcases h3 : env.ch_create_node with e3 | iid
      · simp only [firstOutcome, h1, h2, h3, Option.some.injEq] at h
        subst h
        refine ⟨{ initInstance env nd with
        resolved_node_definition := some rdef,
        backend_id := some rdef.backend_id }, ?_, rfl, rfl, rfl, rfl⟩
        simp [CreateNode.perform, CreateNode.perform_create, h1, h2, h3,
              CreateNode.handle, hki]
      · rcases h4 : env.uds_register_started_node with e4 | u4
        · simp only [firstOutcome, h1, h2, h3, h4, Option.some.injEq] at h
          subst h
          refine ⟨{ initInstance env nd with
        resolved_node_definition := some rdef,
        backend_id := some rdef.backend_id,
        instance_id := some iid }, ?_, rfl, rfl, rfl, rfl⟩
          simp [CreateNode.perform, CreateNode.perform_create, h1, h2, h3,
                h4, CreateNode.handle, hki]
        · rcases h5 : env.ib_get_address with e5 | a5
          · simp only [firstOutcome, h1, h2, h3, h4, h5,
                       Option.some.injEq] at h
            subst h
            refine ⟨{ initInstance env nd with
        resolved_node_definition := some rdef,
        backend_id := some rdef.backend_id,
        instance_id := some iid }, ?_, rfl, rfl, rfl, rfl⟩
            simp [CreateNode.perform, CreateNode.perform_create, h1, h2, h3,
                  h4, h5, CreateNode.handle, hki]
          · rcases h6 : env.ib_get_ip with e6 | a6
            · simp only [firstOutcome, h1, h2, h3, h4, h5, h6,
                         Option.some.injEq] at h
              subst h
              refine ⟨{ initInstance env nd with
        resolved_node_definition := some rdef,
        backend_id := some rdef.backend_id,
        instance_id := some iid }, ?_, rfl, rfl, rfl, rfl⟩
              simp [CreateNode.perform, CreateNode.perform_create, h1, h2,
                    h3, h4, h5, h6, CreateNode.handle, hki]
            · rcases h7 : env.wait_for_node with e7 | u7
              · simp only [firstOutcome, h1, h2, h3, h4, h5, h6, h7,
                           Option.some.injEq] at h
                subst h
                refine ⟨{ initInstance env nd with
        resolved_node_definition := some rdef,
        backend_id := some rdef.backend_id,
        instance_id := some iid }, ?_, rfl, rfl, rfl, rfl⟩
                simp [CreateNode.perform, CreateNode.perform_create, h1, h2,
                      h3, h4, h5, h6, h7, CreateNode.handle, hki]
              · rcases h8 : env.ev_node_created with e8 | u8
                · simp only [firstOutcome, h1, h2, h3, h4, h5, h6, h7, h8,
                             Option.some.injEq] at h
                  subst h
                  refine ⟨{ initInstance env nd with
        resolved_node_definition := some rdef,
        backend_id := some rdef.backend_id,
        instance_id := some iid }, ?_, rfl, rfl, rfl, rfl⟩
                  simp [CreateNode.perform, CreateNode.perform_create, h1,
                        h2, h3, h4, h5, h6, h7, h8, CreateNode.handle, hki]
                · simp only [firstOutcome, h1, h2, h3, h4, h5, h6, h7,
                             h8] at h
                  exact Option.noConfusion h

/-- C9: each of the processor factory operations returns a command object
that stores exactly the given argument, and makes no collaborator invocation
at construction time; collaborators are reached only through Command.perform
on the constructed command. -/
theorem c9_factories_construct_pure :
    ∀ (infra : String) (nd : NodeDescription) (i : InstanceData),
      BasicInfraProcessor.cri_create_infrastructure infra =
        (Command.createInfrastructure infra, []) ∧
      BasicInfraProcessor.cri_create_node nd = (Command.createNode nd, []) ∧
      BasicInfraProcessor.cri_drop_node i = (Command.dropNode i, []) ∧
      BasicInfraProcessor.cri_drop_infrastructure infra =
        (Command.dropInfrastructure infra, []) := by
  intro infra nd i
  exact ⟨rfl, rfl, rfl, rfl⟩

/-- C6: in DropNode.perform, a non-orchestration exception is wrapped as
MinorInfraProcessorError carrying the infra id, the instance data and the
cause; a KeyboardInterrupt or a pre-classified InfraProcessorError propagates
unchanged; and the trace holds nothing but the three drop steps, so no
compensating action is attempted. -/
theorem c6_drop_node_error_policy (env : Env) (i : InstanceData)
    (c : Composer) (e : PyExn) (h : dropFirstOutcome env = some e) :
    ((e ≠ PyExn.keyboardInterrupt ∧ e.isInfraProcessorError = false) →
        (DropNode.perform env i c).1 =
          .error (.minorInfraProcessorError i.infra_id e (some i))) ∧
    (e = PyExn.keyboardInterrupt →
        (DropNode.perform env i c).1 = .error PyExn.keyboardInterrupt) ∧
    (e.isInfraProcessorError = true →
        (DropNode.perform env i c).1 = .error e) ∧
    (∀ ev ∈ (DropNode.perform env i c).2.1,
        ev = Ev.chDropNode i.node_id ∨ ev = Ev.scDropNode i.node_id ∨
        ev = Ev.evNodeDeleted i.node_id) := by
  have main : (DropNode.perform env i c).1 =
      .error (dropWrap i.infra_id (some i) e) := by
    rcases h1 : env.ch_drop_node with e1 | u1 <;>
      rcases h2 : env.sc_drop_node with e2 | u2 <;>
      rcases h3 : env.ev_node_deleted with e3 | u3 <;>
      simp_all [DropNode.perform, dropFirstOutcome]
  refine ⟨?_, ?_, ?_, dropNode_events env i c⟩
  · intro hh
    rw [main]
    simp [dropWrap, hh.1, hh.2]
  · intro hk
    rw [main]
    simp [dropWrap, hk]
  · intro hipe
    have hk : e ≠ PyExn.keyboardInterrupt := by
      intro hh
      subst hh
      simp [PyExn.isInfraProcessorError] at hipe
    rw [main]
    simp [dropWrap, hk, hipe]

/-- Oracle where the cloud-handler drop fails with an uncategorized error. -/
def envC6 : Env := { envAllOk with ch_drop_node := .error (.otherExc 4) }

/-- The InstanceData returned by a fully successful CreateNode under
envAllOk. -/
def iD : InstanceData :=
  { node_id := "N", infra_id := "I", user_id := "U", node_description := ndD,
    resolved_node_definition := some rdefD, backend_id := some "B",
    instance_id := some "VM1" }

/-- Witness for c6_drop_node_error_policy at a concrete oracle. -/
theorem c6_drop_node_error_policy_witness :
    dropFirstOutcome envC6 = some (PyExn.otherExc 4) ∧
    (DropNode.perform envC6 iD []).1 =
      .error (.minorInfraProcessorError iD.infra_id (.otherExc 4) (some iD)) := by
  have h := c6_drop_node_error_policy envC6 iD [] (.otherExc 4) rfl
  exact ⟨rfl, h.1 ⟨by intro hh; exact PyExn.noConfusion hh, rfl⟩⟩

/-- C10: a NodeCreationError escaping a step of CreateNode reaches perform,
which amends its instance_data with the accumulated InstanceData exactly when
that field is empty; a NodeCreationError already carrying instance data is
re-raised completely unchanged. -/
theorem c10_amend_iff_empty (env : Env) (nd : NodeDescription) (c : Composer)
    (od : Option InstanceData) (cause : PyExn)
    (h : firstOutcome env = some (.nodeCreationError od cause)) :
    (∀ d, od = some d →
        (CreateNode.perform env nd c).1 =
          .error (.nodeCreationError (some d) cause)) ∧
    (od = none →
        ∃ i, (CreateNode.perform env nd c).1 =
            .error (.nodeCreationError (some i) cause) ∧
          i.node_id = env.fresh_node_id ∧ i.infra_id = nd.infra_id ∧
          i.user_id = nd.user_id ∧ i.node_description = nd) := by
  constructor
  · intro d hd
    subst hd
    obtain ⟨i, hi, -, -, -, -⟩ := createNode_error_of_firstOutcome env nd c
      _ h (by intro hh; exact PyExn.noConfusion hh)
    rw [hi]
    simp [amendNode]
  · intro hod
    subst hod
    obtain ⟨i, hi, f1, f2, f3, f4⟩ := createNode_error_of_firstOutcome env nd
      c _ h (by intro hh; exact PyExn.noConfusion hh)
    exact ⟨i, by rw [hi]; simp [amendNode], f1, f2, f3, f4⟩

/-- Oracle where the readiness wait raises a NodeCreationError with empty
instance data. -/
def envC10a : Env :=
  { envAllOk with
    wait_for_node := .error (.nodeCreationError none (.otherExc 1)) }

/-- An InstanceData distinct from the one CreateNode accumulates. -/
def iOther : InstanceData :=
  { node_id := "X", infra_id := "J", user_id := "V", node_description := ndD }

/-- Oracle where the readiness wait raises a NodeCreationError already
carrying instance data. -/
def envC10b : Env :=
  { envAllOk with
    wait_for_node := .error (.nodeCreationError (some iOther) (.otherExc 1)) }

/-- Witness for c10_amend_iff_empty at concrete oracles for both cases. -/
theorem c10_amend_iff_empty_witness :
    (firstOutcome envC10a = some (.nodeCreationError none (.otherExc 1)) ∧
      ∃ i, (CreateNode.perform envC10a ndD []).1 =
          .error (.nodeCreationError (some i) (.otherExc 1)) ∧
        i.node_id = envC10a.fresh_node_id ∧ i.infra_id = ndD.infra_id ∧
        i.user_id = ndD.user_id ∧ i.node_description = ndD) ∧
    (firstOutcome envC10b =
        some (.nodeCreationError (some iOther) (.otherExc 1)) ∧
      (CreateNode.perform envC10b ndD []).1 =
        .error (.nodeCreationError (some iOther) (.otherExc 1))) := by
  refine ⟨⟨rfl, ?_⟩, ⟨rfl, ?_⟩⟩
  · exact (c10_amend_iff_empty envC10a ndD [] none (.otherExc 1) rfl).2 rfl
  · exact (c10_amend_iff_empty envC10b ndD [] (some iOther) (.otherExc 1)
      rfl).1 iOther rfl

/-- C3: when the first exception escaping the try block of CreateNode.perform
is a KeyboardInterrupt, perform re-raises exactly that cancellation to the
caller regardless of the outcomes of the compensation sub-calls (compensation
errors are discarded), and the trace shows _undo_create_node invoked with the
InstanceData assembled so far (identity fields from the description, the
resolved definition exactly when resolution had succeeded), the compensating
cloud-handler drop being its first step. -/
theorem c3_cancellation_policy (env : Env) (nd : NodeDescription)
    (c : Composer) (h : firstOutcome env = some PyExn.keyboardInterrupt) :
    (CreateNode.perform env nd c).1 = .error PyExn.keyboardInterrupt ∧
    ∃ i, Ev.undoCreateNode i ∈ (CreateNode.perform env nd c).2.1 ∧
      Ev.chDropNode i.node_id ∈ (CreateNode.perform env nd c).2.1 ∧
      i.node_id = env.fresh_node_id ∧ i.infra_id = nd.infra_id ∧
      i.user_id = nd.user_id ∧ i.node_description = nd ∧
      i.resolved_node_definition = okOption env.resolve_node := by
  rcases h1 : env.resolve_node with e1 | rdef
  · simp only [firstOutcome, h1, Option.some.injEq] at h
    subst h
    refine ⟨?_, ⟨initInstance env nd, ?_, ?_, rfl, rfl, rfl, rfl, ?_⟩⟩
    · simp [CreateNode.perform, CreateNode.perform_create, CreateNode.handle,
            h1]
    · simp [CreateNode.perform, CreateNode.perform_create, CreateNode.handle,
            CreateNode.undo_create_node, h1]
    · simp [CreateNode.perform, CreateNode.perform_create, CreateNode.handle,
            CreateNode.undo_create_node, h1, chDrop_mem_dropNode]
    · simp [okOption, h1, initInstance]
  · rcases h2 : env.sc_register_node with e2 | u2
    · simp only [firstOutcome, h1, h2, Option.some.injEq] at h
      subst h
      refine ⟨?_, ⟨{ initInstance env nd with
        resolved_node_definition := some rdef,
        backend_id := some rdef.backend_id }, ?_, ?_, rfl, rfl, rfl, rfl, ?_⟩⟩
      · simp [CreateNode.perform, CreateNode.perform_create,
              CreateNode.handle, h1, h2]
      · simp [CreateNode.perform, CreateNode.perform_create,
              CreateNode.handle, CreateNode.undo_create_node, h1, h2]
      · simp [CreateNode.perform, CreateNode.perform_create,
              CreateNode.handle, CreateNode.undo_create_node, h1, h2,
              chDrop_mem_dropNode]
      · simp [okOption, h1]
    · rcases h3 : env.ch_create_node with e3 | iid
      · simp only [firstOutcome, h1, h2, h3, Option.some.injEq] at h
        subst h
        refine ⟨?_, ⟨{ initInstance env nd with
          resolved_node_definition := some rdef,
          backend_id := some rdef.backend_id }, ?_, ?_, rfl, rfl, rfl, rfl,
          ?_⟩⟩
        · simp [CreateNode.perform, CreateNode.perform_create,
                CreateNode.handle, h1, h2, h3]
        · simp [CreateNode.perform, CreateNode.perform_create,
                CreateNode.handle, CreateNode.undo_create_node, h1, h2, h3]
        · simp [CreateNode.perform, CreateNode.perform_create,
                CreateNode.handle, CreateNode.undo_create_node, h1, h2, h3,
                chDrop_mem_dropNode]
        · simp [okOption, h1]
      · rcases h4 : env.uds_register_started_node with e4 | u4
        · simp only [firstOutcome, h1, h2, h3, h4, Option.some.injEq] at h
          subst h
          refine ⟨?_, ⟨{ initInstance env nd with
            resolved_node_definition := some rdef,
            backend_id := some rdef.backend_id,
            instance_id := some iid }, ?_, ?_, rfl, rfl, rfl, rfl, ?_⟩⟩
          · simp [CreateNode.perform, CreateNode.perform_create,
                  CreateNode.handle, h1, h2, h3, h4]
          · simp [CreateNode.perform, CreateNode.perform_create,
                  CreateNode.handle, CreateNode.undo_create_node, h1, h2, h3,
                  h4]
          · simp [CreateNode.perform, CreateNode.perform_create,
                  CreateNode.handle, CreateNode.undo_create_node, h1, h2, h3,
                  h4, chDrop_mem_dropNode]
          · simp [okOption, h1]
        · rcases h5 : env.ib_get_address with e5 | a5
          · simp only [firstOutcome, h1, h2, h3, h4, h5,
                       Option.some.injEq] at h
            subst h
            refine ⟨?_, ⟨{ initInstance env nd with
              resolved_node_definition := some rdef,
              backend_id := some rdef.backend_id,
              instance_id := some iid }, ?_, ?_, rfl, rfl, rfl, rfl, ?_⟩⟩
            · simp [CreateNode.perform, CreateNode.perform_create,
                    CreateNode.handle, h1, h2, h3, h4, h5]
            · simp [CreateNode.perform, CreateNode.perform_create,
                    CreateNode.handle, CreateNode.undo_create_node, h1, h2,
                    h3, h4, h5]
            · simp [CreateNode.perform, CreateNode.perform_create,
                    CreateNode.handle, CreateNode.undo_create_node, h1, h2,
                    h3, h4, h5, chDrop_mem_dropNode]
            · simp [okOption, h1]
          · rcases h6 : env.ib_get_ip with e6 | a6
            · simp only [firstOutcome, h1, h2, h3, h4, h5, h6,
                         Option.some.injEq] at h
              subst h
              refine ⟨?_, ⟨{ initInstance env nd with
                resolved_node_definition := some rdef,
                backend_id := some rdef.backend_id,
                instance_id := some iid }, ?_, ?_, rfl, rfl, rfl, rfl, ?_⟩⟩
              · simp [CreateNode.perform, CreateNode.perform_create,
                      CreateNode.handle, h1, h2, h3, h4, h5, h6]
              · simp [CreateNode.perform, CreateNode.perform_create,
                      CreateNode.handle, CreateNode.undo_create_node, h1, h2,
                      h3, h4, h5, h6]
              · simp [CreateNode.perform, CreateNode.perform_create,
                      CreateNode.handle, CreateNode.undo_create_node, h1, h2,
                      h3, h4, h5, h6, chDrop_mem_dropNode]
              · simp [okOption, h1]
            · rcases h7 : env.wait_for_node with e7 | u7
              · simp only [firstOutcome, h1, h2, h3, h4, h5, h6, h7,
                           Option.some.injEq] at h
                subst h
                refine ⟨?_, ⟨{ initInstance env nd with
                  resolved_node_definition := some rdef,
                  backend_id := some rdef.backend_id,
                  instance_id := some iid }, ?_, ?_, rfl, rfl, rfl, rfl, ?_⟩⟩
                · simp [CreateNode.perform, CreateNode.perform_create,
                        CreateNode.handle, h1, h2, h3, h4, h5, h6, h7]
                · simp [CreateNode.perform, CreateNode.perform_create,
                        CreateNode.handle, CreateNode.undo_create_node, h1,
                        h2, h3, h4, h5, h6, h7]
                · simp [CreateNode.perform, CreateNode.perform_create,
                        CreateNode.handle, CreateNode.undo_create_node, h1,
                        h2, h3, h4, h5, h6, h7, chDrop_mem_dropNode]
                · simp [okOption, h1]
              · rcases h8 : env.ev_node_created with e8 | u8
                · simp only [firstOutcome, h1, h2, h3, h4, h5, h6, h7, h8,
                             Option.some.injEq] at h
                  subst h
                  refine ⟨?_, ⟨{ initInstance env nd with
                    resolved_node_definition := some rdef,
                    backend_id := some rdef.backend_id,
                    instance_id := some iid }, ?_, ?_, rfl, rfl, rfl, rfl,
                    ?_⟩⟩
                  · simp [CreateNode.perform, CreateNode.perform_create,
                          CreateNode.handle, h1, h2, h3, h4, h5, h6, h7, h8]
                  · simp [CreateNode.perform, CreateNode.perform_create,
                          CreateNode.handle, CreateNode.undo_create_node, h1,
                          h2, h3, h4, h5, h6, h7, h8]
                  · simp [CreateNode.perform, CreateNode.perform_create,
                          CreateNode.handle, CreateNode.undo_create_node, h1,
                          h2, h3, h4, h5, h6, h7, h8, chDrop_mem_dropNode]
                  · simp [okOption, h1]
                · simp only [firstOutcome, h1, h2, h3, h4, h5, h6, h7,
                             h8] at h
                  exact Option.noConfusion h

/-- Oracle where persistence is interrupted by a cancellation and the
composer drop raised during compensation must be discarded. -/
def envC3 : Env :=
  { envAllOk with
    uds_register_started_node := .error PyExn.keyboardInterrupt,
    sc_drop_node := .error (.otherExc 9) }

/-- Witness for c3_cancellation_policy at a concrete oracle with a failing
compensation step. -/
theorem c3_cancellation_policy_witness :
    firstOutcome envC3 = some PyExn.keyboardInterrupt ∧
    (CreateNode.perform envC3 ndD []).1 = .error PyExn.keyboardInterrupt ∧
    ∃ i, Ev.undoCreateNode i ∈ (CreateNode.perform envC3 ndD []).2.1 ∧
      Ev.chDropNode i.node_id ∈ (CreateNode.perform envC3 ndD []).2.1 ∧
      i.node_id = envC3.fresh_node_id ∧ i.infra_id = ndD.infra_id ∧
      i.user_id = ndD.user_id ∧ i.node_description = ndD ∧
      i.resolved_node_definition = okOption envC3.resolve_node := by
  have h := c3_cancellation_policy envC3 ndD [] rfl
  exact ⟨rfl, h.1, h.2⟩


/-- C2: in every execution of CreateNode.perform, whenever the user-data-store
persistence is invoked, resolution, service-composer registration and
cloud-handler provisioning have already completed successfully and in that
order; and whenever the readiness wait begins, all of resolution,
registration, provisioning and persistence have already completed, in that
order (the trace starts with exactly those calls). -/
theorem c2_step_ordering (env : Env) (nd : NodeDescription) (c : Composer) :
    (∀ inf nm,
       Ev.udsRegisterStartedNode inf nm ∈ (CreateNode.perform env nd c).2.1 →
       (∃ u, env.sc_register_node = .ok u) ∧
       (∃ iid, env.ch_create_node = .ok iid) ∧
       ∃ rdef, env.resolve_node = .ok rdef ∧
         (CreateNode.perform env nd c).2.1.take 4 =
           [Ev.resolveNode env.fresh_node_id,
            Ev.scRegisterNode rdef.infra_id rdef.node_id,
            Ev.chCreateNode env.fresh_node_id,
            Ev.udsRegisterStartedNode nd.infra_id nd.name]) ∧
    (∀ nid, Ev.waitForNode nid ∈ (CreateNode.perform env nd c).2.1 →
       (∃ u, env.sc_register_node = .ok u) ∧
       (∃ iid, env.ch_create_node = .ok iid) ∧
       (∃ u, env.uds_register_started_node = .ok u) ∧
       ∃ rdef, env.resolve_node = .ok rdef ∧
         (CreateNode.perform env nd c).2.1.take 7 =
           [Ev.resolveNode env.fresh_node_id,
            Ev.scRegisterNode rdef.infra_id rdef.node_id,
            Ev.chCreateNode env.fresh_node_id,
            Ev.udsRegisterStartedNode nd.infra_id nd.name,
            Ev.ibGetResourceAddr, Ev.ibGetResourceIp,
            Ev.waitForNode env.fresh_node_id]) := by
  rcases h1 : env.resolve_node with e1 | rdef
  · by_cases hki : e1 = PyExn.keyboardInterrupt
    · subst hki
      have hp : (CreateNode.perform env nd c).2.1 = [Ev.resolveNode env.fresh_node_id] ++ (CreateNode.undo_create_node env (initInstance env nd) (c)).1 := by
        simp [CreateNode.perform, CreateNode.perform_create, CreateNode.handle, initInstance, h1]
      refine ⟨fun inf nm hmem => ?_, fun nid hmem => ?_⟩
      · rw [hp] at hmem
        simp [uds_not_mem_undo] at hmem
      · rw [hp] at hmem
        simp [wait_not_mem_undo] at hmem
    · have hp : (CreateNode.perform env nd c).2.1 = [Ev.resolveNode env.fresh_node_id] := by
        simp [CreateNode.perform, CreateNode.perform_create, CreateNode.handle, initInstance, h1, hki]
      refine ⟨fun inf nm hmem => ?_, fun nid hmem => ?_⟩
      · rw [hp] at hmem
        simp [uds_not_mem_undo] at hmem
      · rw [hp] at hmem
        simp [wait_not_mem_undo] at hmem
  rcases h2 : env.sc_register_node with e2 | u2
  · by_cases hki : e2 = PyExn.keyboardInterrupt
    · subst hki
      have hp : (CreateNode.perform env nd c).2.1 = [Ev.resolveNode env.fresh_node_id, Ev.scRegisterNode rdef.infra_id rdef.node_id] ++ (CreateNode.undo_create_node env { initInstance env nd with resolved_node_definition := some rdef, backend_id := some rdef.backend_id } (c)).1 := by
        simp [CreateNode.perform, CreateNode.perform_create, CreateNode.handle, initInstance, h1, h2]
      refine ⟨fun inf nm hmem => ?_, fun nid hmem => ?_⟩
      · rw [hp] at hmem
        simp [uds_not_mem_undo] at hmem
      · rw [hp] at hmem
        simp [wait_not_mem_undo] at hmem
    · have hp : (CreateNode.perform env nd c).2.1 = [Ev.resolveNode env.fresh_node_id, Ev.scRegisterNode rdef.infra_id rdef.node_id] := by
        simp [CreateNode.perform, CreateNode.perform_create, CreateNode.handle, initInstance, h1, h2, hki]
      refine ⟨fun inf nm hmem => ?_, fun nid hmem => ?_⟩
      · rw [hp] at hmem
        simp [uds_not_mem_undo] at hmem
      · rw [hp] at hmem
        simp [wait_not_mem_undo] at hmem
  rcases h3 : env.ch_create_node with e3 | iid
  · by_cases hki : e3 = PyExn.keyboardInterrupt
    · subst hki
      have hp : (CreateNode.perform env nd c).2.1 = [Ev.resolveNode env.fresh_node_id, Ev.scRegisterNode rdef.infra_id rdef.node_id, Ev.chCreateNode env.fresh_node_id] ++ (CreateNode.undo_create_node env { initInstance env nd with resolved_node_definition := some rdef, backend_id := some rdef.backend_id } (registerC c rdef.infra_id rdef.node_id)).1 := by
        simp [CreateNode.perform, CreateNode.perform_create, CreateNode.handle, initInstance, h1, h2, h3]
      refine ⟨fun inf nm hmem => ?_, fun nid hmem => ?_⟩
      · rw [hp] at hmem
        simp [uds_not_mem_undo] at hmem
      · rw [hp] at hmem
        simp [wait_not_mem_undo] at hmem
    · have hp : (CreateNode.perform env nd c).2.1 = [Ev.resolveNode env.fresh_node_id, Ev.scRegisterNode rdef.infra_id rdef.node_id, Ev.chCreateNode env.fresh_node_id] := by
        simp [CreateNode.perform, CreateNode.perform_create, CreateNode.handle, initInstance, h1, h2, h3, hki]
      refine ⟨fun inf nm hmem => ?_, fun nid hmem => ?_⟩
      · rw [hp] at hmem
        simp [uds_not_mem_undo] at hmem
      · rw [hp] at hmem
        simp [wait_not_mem_undo] at hmem
  rcases h4 : env.uds_register_started_node with e4 | u4
  · by_cases hki : e4 = PyExn.keyboardInterrupt
    · subst hki
      have hp : (CreateNode.perform env nd c).2.1 = [Ev.resolveNode env.fresh_node_id, Ev.scRegisterNode rdef.infra_id rdef.node_id, Ev.chCreateNode env.fresh_node_id, Ev.udsRegisterStartedNode nd.infra_id nd.name] ++ (CreateNode.undo_create_node env { initInstance env nd with resolved_node_definition := some rdef, backend_id := some rdef.backend_id, instance_id := some iid } (registerC c rdef.infra_id rdef.node_id)).1 := by
        simp [CreateNode.perform, CreateNode.perform_create, CreateNode.handle, initInstance, h1, h2, h3, h4]
      refine ⟨fun inf nm hmem => ⟨⟨u2, rfl⟩, ⟨iid, rfl⟩, rdef, rfl, by rw [hp]; rfl⟩, fun nid hmem => ?_⟩
      rw [hp] at hmem
      simp [wait_not_mem_undo] at hmem
    · have hp : (CreateNode.perform env nd c).2.1 = [Ev.resolveNode env.fresh_node_id, Ev.scRegisterNode rdef.infra_id rdef.node_id, Ev.chCreateNode env.fresh_node_id, Ev.udsRegisterStartedNode nd.infra_id nd.name] := by
        simp [CreateNode.perform, CreateNode.perform_create, CreateNode.handle, initInstance, h1, h2, h3, h4, hki]
      refine ⟨fun inf nm hmem => ⟨⟨u2, rfl⟩, ⟨iid, rfl⟩, rdef, rfl, by rw [hp]; rfl⟩, fun nid hmem => ?_⟩
      rw [hp] at hmem
      simp [wait_not_mem_undo] at hmem
  rcases h5 : env.ib_get_address with e5 | a5
  · by_cases hki : e5 = PyExn.keyboardInterrupt
    · subst hki
      have hp : (CreateNode.perform env nd c).2.1 = [Ev.resolveNode env.fresh_node_id, Ev.scRegisterNode rdef.infra_id rdef.node_id, Ev.chCreateNode env.fresh_node_id, Ev.udsRegisterStartedNode nd.infra_id nd.name, Ev.ibGetResourceAddr] ++ (CreateNode.undo_create_node env { initInstance env nd with resolved_node_definition := some rdef, backend_id := some rdef.backend_id, instance_id := some iid } (registerC c rdef.infra_id rdef.node_id)).1 := by
        simp [CreateNode.perform, CreateNode.perform_create, CreateNode.handle, initInstance, h1, h2, h3, h4, h5]
      refine ⟨fun inf nm hmem => ⟨⟨u2, rfl⟩, ⟨iid, rfl⟩, rdef, rfl, by rw [hp]; rfl⟩, fun nid hmem => ?_⟩
      rw [hp] at hmem
      simp [wait_not_mem_undo] at hmem
    · have hp : (CreateNode.perform env nd c).2.1 = [Ev.resolveNode env.fresh_node_id, Ev.scRegisterNode rdef.infra_id rdef.node_id, Ev.chCreateNode env.fresh_node_id, Ev.udsRegisterStartedNode nd.infra_id nd.name, Ev.ibGetResourceAddr] := by
        simp [CreateNode.perform, CreateNode.perform_create, CreateNode.handle, initInstance, h1, h2, h3, h4, h5, hki]
      refine ⟨fun inf nm hmem => ⟨⟨u2, rfl⟩, ⟨iid, rfl⟩, rdef, rfl, by rw [hp]; rfl⟩, fun nid hmem => ?_⟩
      rw [hp] at hmem
      simp [wait_not_mem_undo] at hmem
  rcases h6 : env.ib_get_ip with e6 | a6
  · by_cases hki : e6 = PyExn.keyboardInterrupt
    · subst hki
      have hp : (CreateNode.perform env nd c).2.1 = [Ev.resolveNode env.fresh_node_id, Ev.scRegisterNode rdef.infra_id rdef.node_id, Ev.chCreateNode env.fresh_node_id, Ev.udsRegisterStartedNode nd.infra_id nd.name, Ev.ibGetResourceAddr, Ev.ibGetResourceIp] ++ (CreateNode.undo_create_node env { initInstance env nd with resolved_node_definition := some rdef, backend_id := some rdef.backend_id, instance_id := some iid } (registerC c rdef.infra_id rdef.node_id)).1 := by
        simp [CreateNode.perform, CreateNode.perform_create, CreateNode.handle, initInstance, h1, h2, h3, h4, h5, h6]
      refine ⟨fun inf nm hmem => ⟨⟨u2, rfl⟩, ⟨iid, rfl⟩, rdef, rfl, by rw [hp]; rfl⟩, fun nid hmem => ?_⟩
      rw [hp] at hmem
      simp [wait_not_mem_undo] at hmem
    · have hp : (CreateNode.perform env nd c).2.1 = [Ev.resolveNode env.fresh_node_id, Ev.scRegisterNode rdef.infra_id rdef.node_id, Ev.chCreateNode env.fresh_node_id, Ev.udsRegisterStartedNode nd.infra_id nd.name, Ev.ibGetResourceAddr, Ev.ibGetResourceIp] := by
        simp [CreateNode.perform, CreateNode.perform_create, CreateNode.handle, initInstance, h1, h2, h3, h4, h5, h6, hki]
      refine ⟨fun inf nm hmem => ⟨⟨u2, rfl⟩, ⟨iid, rfl⟩, rdef, rfl, by rw [hp]; rfl⟩, fun nid hmem => ?_⟩
      rw [hp] at hmem
      simp [wait_not_mem_undo] at hmem
  rcases h7 : env.wait_for_node with e7 | u7
  · by_cases hki : e7 = PyExn.keyboardInterrupt
    · subst hki
      have hp : (CreateNode.perform env nd c).2.1 = [Ev.resolveNode env.fresh_node_id, Ev.scRegisterNode rdef.infra_id rdef.node_id, Ev.chCreateNode env.fresh_node_id, Ev.udsRegisterStartedNode nd.infra_id nd.name, Ev.ibGetResourceAddr, Ev.ibGetResourceIp, Ev.waitForNode env.fresh_node_id] ++ (CreateNode.undo_create_node env { initInstance env nd with resolved_node_definition := some rdef, backend_id := some rdef.backend_id, instance_id := some iid } (registerC c rdef.infra_id rdef.node_id)).1 := by
        simp [CreateNode.perform, CreateNode.perform_create, CreateNode.handle, initInstance, h1, h2, h3, h4, h5, h6, h7]
      exact ⟨fun inf nm hmem => ⟨⟨u2, rfl⟩, ⟨iid, rfl⟩, rdef, rfl, by rw [hp]; rfl⟩,
        fun nid hmem => ⟨⟨u2, rfl⟩, ⟨iid, rfl⟩, ⟨u4, rfl⟩, rdef, rfl, by rw [hp]; rfl⟩⟩
    · have hp : (CreateNode.perform env nd c).2.1 = [Ev.resolveNode env.fresh_node_id, Ev.scRegisterNode rdef.infra_id rdef.node_id, Ev.chCreateNode env.fresh_node_id, Ev.udsRegisterStartedNode nd.infra_id nd.name, Ev.ibGetResourceAddr, Ev.ibGetResourceIp, Ev.waitForNode env.fresh_node_id] := by
        simp [CreateNode.perform, CreateNode.perform_create, CreateNode.handle, initInstance, h1, h2, h3, h4, h5, h6, h7, hki]
      exact ⟨fun inf nm hmem => ⟨⟨u2, rfl⟩, ⟨iid, rfl⟩, rdef, rfl, by rw [hp]; rfl⟩,
        fun nid hmem => ⟨⟨u2, rfl⟩, ⟨iid, rfl⟩, ⟨u4, rfl⟩, rdef, rfl, by rw [hp]; rfl⟩⟩
  rcases h8 : env.ev_node_created with e8 | u8
  · by_cases hki : e8 = PyExn.keyboardInterrupt
    · subst hki
      have hp : (CreateNode.perform env nd c).2.1 = [Ev.resolveNode env.fresh_node_id, Ev.scRegisterNode rdef.infra_id rdef.node_id, Ev.chCreateNode env.fresh_node_id, Ev.udsRegisterStartedNode nd.infra_id nd.name, Ev.ibGetResourceAddr, Ev.ibGetResourceIp, Ev.waitForNode env.fresh_node_id, Ev.evNodeCreated env.fresh_node_id] ++ (CreateNode.undo_create_node env { initInstance env nd with resolved_node_definition := some rdef, backend_id := some rdef.backend_id, instance_id := some iid } (registerC c rdef.infra_id rdef.node_id)).1 := by
        simp [CreateNode.perform, CreateNode.perform_create, CreateNode.handle, initInstance, h1, h2, h3, h4, h5, h6, h7, h8]
      exact ⟨fun inf nm hmem => ⟨⟨u2, rfl⟩, ⟨iid, rfl⟩, rdef, rfl, by rw [hp]; rfl⟩,
        fun nid hmem => ⟨⟨u2, rfl⟩, ⟨iid, rfl⟩, ⟨u4, rfl⟩, rdef, rfl, by rw [hp]; rfl⟩⟩
    · have hp : (CreateNode.perform env nd c).2.1 = [Ev.resolveNode env.fresh_node_id, Ev.scRegisterNode rdef.infra_id rdef.node_id, Ev.chCreateNode env.fresh_node_id, Ev.udsRegisterStartedNode nd.infra_id nd.name, Ev.ibGetResourceAddr, Ev.ibGetResourceIp, Ev.waitForNode env.fresh_node_id, Ev.evNodeCreated env.fresh_node_id] := by
        simp [CreateNode.perform, CreateNode.perform_create, CreateNode.handle, initInstance, h1, h2, h3, h4, h5, h6, h7, h8, hki]
      exact ⟨fun inf nm hmem => ⟨⟨u2, rfl⟩, ⟨iid, rfl⟩, rdef, rfl, by rw [hp]; rfl⟩,
        fun nid hmem => ⟨⟨u2, rfl⟩, ⟨iid, rfl⟩, ⟨u4, rfl⟩, rdef, rfl, by rw [hp]; rfl⟩⟩
  have hp : (CreateNode.perform env nd c).2.1 = [Ev.resolveNode env.fresh_node_id, Ev.scRegisterNode rdef.infra_id rdef.node_id, Ev.chCreateNode env.fresh_node_id, Ev.udsRegisterStartedNode nd.infra_id nd.name, Ev.ibGetResourceAddr, Ev.ibGetResourceIp, Ev.waitForNode env.fresh_node_id, Ev.evNodeCreated env.fresh_node_id] := by
    simp [CreateNode.perform, CreateNode.perform_create, initInstance, h1, h2, h3, h4, h5, h6, h7, h8]
  exact ⟨fun inf nm hmem => ⟨⟨u2, rfl⟩, ⟨iid, rfl⟩, rdef, rfl, by rw [hp]; rfl⟩,
    fun nid hmem => ⟨⟨u2, rfl⟩, ⟨iid, rfl⟩, ⟨u4, rfl⟩, rdef, rfl, by rw [hp]; rfl⟩⟩

/-- Witness for c2_step_ordering at a fully successful concrete oracle. -/
theorem c2_step_ordering_witness :
    Ev.udsRegisterStartedNode ndD.infra_id ndD.name ∈
      (CreateNode.perform envAllOk ndD []).2.1 ∧
    Ev.waitForNode envAllOk.fresh_node_id ∈
      (CreateNode.perform envAllOk ndD []).2.1 ∧
    ((∃ u, envAllOk.sc_register_node = .ok u) ∧
      (∃ iid, envAllOk.ch_create_node = .ok iid) ∧
      ∃ rdef, envAllOk.resolve_node = .ok rdef ∧
        (CreateNode.perform envAllOk ndD []).2.1.take 4 =
          [Ev.resolveNode envAllOk.fresh_node_id,
           Ev.scRegisterNode rdef.infra_id rdef.node_id,
           Ev.chCreateNode envAllOk.fresh_node_id,
           Ev.udsRegisterStartedNode ndD.infra_id ndD.name]) ∧
    ((∃ u, envAllOk.sc_register_node = .ok u) ∧
      (∃ iid, envAllOk.ch_create_node = .ok iid) ∧
      (∃ u, envAllOk.uds_register_started_node = .ok u) ∧
      ∃ rdef, envAllOk.resolve_node = .ok rdef ∧
        (CreateNode.perform envAllOk ndD []).2.1.take 7 =
          [Ev.resolveNode envAllOk.fresh_node_id,
           Ev.scRegisterNode rdef.infra_id rdef.node_id,
           Ev.chCreateNode envAllOk.fresh_node_id,
           Ev.udsRegisterStartedNode ndD.infra_id ndD.name,
           Ev.ibGetResourceAddr, Ev.ibGetResourceIp,
           Ev.waitForNode envAllOk.fresh_node_id]) := by
  have h := c2_step_ordering envAllOk ndD []
  have hm1 : Ev.udsRegisterStartedNode ndD.infra_id ndD.name ∈
      (CreateNode.perform envAllOk ndD []).2.1 := by decide
  have hm2 : Ev.waitForNode envAllOk.fresh_node_id ∈
      (CreateNode.perform envAllOk ndD []).2.1 := by decide
  exact ⟨hm1, hm2, h.1 ndD.infra_id ndD.name hm1,
         h.2 envAllOk.fresh_node_id hm2⟩

/-- Oracle where the cloud-handler create step raises a NodeCreationError
carrying no instance data. -/
def envC4x : Env :=
  { envAllOk with
    ch_create_node := .error (.nodeCreationError none (.otherExc 1)) }

/-- The InstanceData accumulated by CreateNode under envAllOk-like oracles up
to and including the cloud-handler create call site (instance id not yet
assigned). -/
def iPartial : InstanceData :=
  { node_id := "N", infra_id := "I", user_id := "U", node_description := ndD,
    resolved_node_definition := some rdefD, backend_id := some "B" }

/-- Counterexample to C4 as stated: a pre-classified orchestration error (a
NodeCreationError with empty instance data) escaping the cloud-handler create
step is NOT re-raised unchanged by CreateNode.perform: its instance_data
field is filled in before re-raising. -/
theorem c4_claim_false :
    firstOutcome envC4x = some (.nodeCreationError none (.otherExc 1)) ∧
    (PyExn.nodeCreationError none (.otherExc 1)).isInfraProcessorError =
      true ∧
    (CreateNode.perform envC4x ndD []).1 =
      .error (.nodeCreationError (some iPartial) (.otherExc 1)) ∧
    (CreateNode.perform envC4x ndD []).1 ≠
      .error (.nodeCreationError none (.otherExc 1)) := by
  refine ⟨rfl, rfl, by decide, by decide⟩

/-- C4 as amended: an exception escaping a step of CreateInfrastructure.perform
or CreateNode.perform that is not a cancellation is classified exactly once at
the command boundary: a pre-classified InfraProcessorError is never wrapped in
another error type (for CreateNode, a NodeCreationError with empty instance
data has its instance data filled in, per amendNode; everything else
pre-classified is re-raised unchanged), and any other exception is wrapped
exactly once into InfrastructureCreationError carrying the infra id and cause,
or NodeCreationError carrying the accumulated InstanceData and cause. -/
theorem c4_amended_wrap_policy (env : Env) (nd : NodeDescription)
    (infra : String) (c : Composer) (e : PyExn)
    (hki : e ≠ PyExn.keyboardInterrupt) :
    (firstInfraOutcome env = some e →
       (CreateInfrastructure.perform env infra c).1 =
         .error (if e.isInfraProcessorError then e
                 else .infrastructureCreationError infra e)) ∧
    (firstOutcome env = some e →
       ∃ i, (CreateNode.perform env nd c).1 = .error (amendNode e i) ∧
         i.node_id = env.fresh_node_id ∧ i.infra_id = nd.infra_id ∧
         i.user_id = nd.user_id ∧ i.node_description = nd) := by
  constructor
  · intro h
    rcases h1 : env.sc_create_infrastructure with e1 | r1
    · simp only [firstInfraOutcome, h1, Option.some.injEq] at h
      subst h
      cases hipe : e1.isInfraProcessorError <;>
        simp [CreateInfrastructure.perform, CreateInfrastructure.handle,
              h1, hki, hipe]
    · rcases h2 : env.ev_infrastructure_created with e2 | u2
      · simp only [firstInfraOutcome, h1, h2, Option.some.injEq] at h
        subst h
        cases hipe : e2.isInfraProcessorError <;>
          simp [CreateInfrastructure.perform, CreateInfrastructure.handle,
                h1, h2, hki, hipe]
      · simp only [firstInfraOutcome, h1, h2] at h
        exact Option.noConfusion h
  · intro h
    exact createNode_error_of_firstOutcome env nd c e h hki

/-- Oracle where both create commands fail at their first step with an
uncategorized exception. -/
def envC4w : Env :=
  { envAllOk with
    sc_create_infrastructure := .error (.otherExc 3),
    resolve_node := .error (.otherExc 3) }

/-- Witness for c4_amended_wrap_policy at a concrete oracle. -/
theorem c4_amended_wrap_policy_witness :
    firstInfraOutcome envC4w = some (.otherExc 3) ∧
    (CreateInfrastructure.perform envC4w "I" []).1 =
      .error (if (PyExn.otherExc 3).isInfraProcessorError then .otherExc 3
              else .infrastructureCreationError "I" (.otherExc 3)) ∧
    firstOutcome envC4w = some (.otherExc 3) ∧
    ∃ i, (CreateNode.perform envC4w ndD []).1 =
        .error (amendNode (.otherExc 3) i) ∧
      i.node_id = envC4w.fresh_node_id ∧ i.infra_id = ndD.infra_id ∧
      i.user_id = ndD.user_id ∧ i.node_description = ndD := by
  have h := c4_amended_wrap_policy envC4w ndD "I" [] (.otherExc 3)
    (by intro hh; exact PyExn.noConfusion hh)
  exact ⟨rfl, h.1 rfl, rfl, h.2 rfl⟩

/-- Oracle where the cloud-handler create call raises an uncategorized
exception. -/
def envC1x : Env := { envAllOk with ch_create_node := .error (.otherExc 7) }

/-- Counterexample to C1 as stated: when the cloud handler raises an
uncategorized exception, CreateNode.perform raises a NodeCreationError, but
the compensating drop-node is NOT invoked (the trace ends at the failed
create call) and the service composer still holds the registration for the
node. -/
theorem c1_claim_false :
    (CreateNode.perform envC1x ndD []).1 =
      .error (.nodeCreationError (some iPartial) (.otherExc 7)) ∧
    (CreateNode.perform envC1x ndD []).2.1 =
      [Ev.resolveNode "N", Ev.scRegisterNode "I" "N", Ev.chCreateNode "N"] ∧
    membership (CreateNode.perform envC1x ndD []).2.2 "I" = ["N"] := by
  exact ⟨by decide, by decide, by decide⟩

/-- C1 as amended: if the cloud handler raises an exception that is neither a
cancellation nor a pre-classified orchestration error, CreateNode.perform
raises a NodeCreationError carrying the accumulated instance data, but no
compensation runs: the trace holds exactly the three calls made so far and
the service composer retains the registration added for the node.
Compensation runs only on cancellation. -/
theorem c1_amended_no_compensation (env : Env) (nd : NodeDescription)
    (c : Composer) (rdef : ResolvedNodeDefinition) (e : PyExn)
    (hres : env.resolve_node = .ok rdef)
    (hreg : env.sc_register_node = .ok ())
    (hcr : env.ch_create_node = .error e)
    (hki : e ≠ PyExn.keyboardInterrupt)
    (hipe : e.isInfraProcessorError = false) :
    ∃ i, (CreateNode.perform env nd c).1 =
        .error (.nodeCreationError (some i) e) ∧
      (CreateNode.perform env nd c).2.1 =
        [Ev.resolveNode env.fresh_node_id,
         Ev.scRegisterNode rdef.infra_id rdef.node_id,
         Ev.chCreateNode env.fresh_node_id] ∧
      (CreateNode.perform env nd c).2.2 =
        registerC c rdef.infra_id rdef.node_id ∧
      membership (CreateNode.perform env nd c).2.2 rdef.infra_id =
        membership c rdef.infra_id ++ [rdef.node_id] := by
  have hall : CreateNode.perform env nd c =
      (.error (.nodeCreationError (some { initInstance env nd with
          resolved_node_definition := some rdef,
          backend_id := some rdef.backend_id }) e),
       [Ev.resolveNode env.fresh_node_id,
        Ev.scRegisterNode rdef.infra_id rdef.node_id,
        Ev.chCreateNode env.fresh_node_id],
       registerC c rdef.infra_id rdef.node_id) := by
    simp [CreateNode.perform, CreateNode.perform_create, CreateNode.handle,
          initInstance, hres, hreg, hcr, hki, amendNode_of_not_ipe, hipe]
  refine ⟨{ initInstance env nd with
      resolved_node_definition := some rdef,
      backend_id := some rdef.backend_id }, ?_, ?_, ?_, ?_⟩
  · rw [hall]
  · rw [hall]
  · rw [hall]
  · rw [hall]
    exact membership_registerC c rdef.infra_id rdef.node_id

/-- Witness for c1_amended_no_compensation at a concrete oracle. -/
theorem c1_amended_no_compensation_witness :
    ∃ i, (CreateNode.perform envC1x ndD []).1 =
        .error (.nodeCreationError (some i) (.otherExc 7)) ∧
      (CreateNode.perform envC1x ndD []).2.1 =
        [Ev.resolveNode envC1x.fresh_node_id,
         Ev.scRegisterNode rdefD.infra_id rdefD.node_id,
         Ev.chCreateNode envC1x.fresh_node_id] ∧
      (CreateNode.perform envC1x ndD []).2.2 =
        registerC [] rdefD.infra_id rdefD.node_id ∧
      membership (CreateNode.perform envC1x ndD []).2.2 rdefD.infra_id =
        membership [] rdefD.infra_id ++ [rdefD.node_id] := by
  exact c1_amended_no_compensation envC1x ndD [] rdefD (.otherExc 7) rfl rfl
    rfl (by intro hh; exact PyExn.noConfusion hh) rfl

/-- Oracle where every backend call succeeds but every event-log notification
raises an uncategorized exception. -/
def envC7 : Env :=
  { envAllOk with
    ev_infrastructure_created := .error (.otherExc 2),
    ev_node_created := .error (.otherExc 2),
    ev_infrastructure_deleted := .error (.otherExc 2),
    ev_node_deleted := .error (.otherExc 2) }

/-- Counterexample to C7 as stated: the service composer call succeeds (the
infrastructure is created), yet the failing infrastructure-created event-log
call makes CreateInfrastructure.perform raise instead of returning the
result. -/
theorem c7_claim_false :
    envC7.sc_create_infrastructure = .ok "R" ∧
    (CreateInfrastructure.perform envC7 "I" []).1 =
      .error (.infrastructureCreationError "I" (.otherExc 2)) := by
  exact ⟨rfl, by decide⟩

/-- C7 as amended: a failure of an event-log notification is handled like any
other failure of the operation it describes: the operation raises (wrapped by
the command's handler chain when uncategorized) even though the underlying
backend call has already completed, for each of the four commands. -/
theorem c7_amended_eventlog_failure (env : Env) (infra : String)
    (nd : NodeDescription) (i : InstanceData) (c : Composer) (e : PyExn)
    (r : String) (hki : e ≠ PyExn.keyboardInterrupt)
    (hipe : e.isInfraProcessorError = false) :
    (env.sc_create_infrastructure = .ok r →
       env.ev_infrastructure_created = .error e →
       (CreateInfrastructure.perform env infra c).1 =
         .error (.infrastructureCreationError infra e)) ∧
    ((CreateNode.perform_create env nd c).1 = .ok i →
       env.ev_node_created = .error e →
       (CreateNode.perform env nd c).1 =
         .error (.nodeCreationError (some i) e)) ∧
    (env.sc_drop_infrastructure = .ok () →
       env.ev_infrastructure_deleted = .error e →
       (DropInfrastructure.perform env infra c).1 =
         .error (.minorInfraProcessorError infra e none)) ∧
    (env.ch_drop_node = .ok () → env.sc_drop_node = .ok () →
       env.ev_node_deleted = .error e →
       (DropNode.perform env i c).1 =
         .error (.minorInfraProcessorError i.infra_id e (some i))) := by
  refine ⟨?_, ?_, ?_, ?_⟩
  · intro hsc hev
    simp [CreateInfrastructure.perform, CreateInfrastructure.handle, hsc,
          hev, hki, hipe]
  · intro hcore hev
    simp [CreateNode.perform, hcore, hev, CreateNode.handle, hki,
          amendNode_of_not_ipe, hipe]
  · intro h1 h2
    simp [DropInfrastructure.perform, h1, h2, dropWrap, hki, hipe]
  · intro h1 h2 h3
    simp [DropNode.perform, h1, h2, h3, dropWrap, hki, hipe]

/-- Witness for c7_amended_eventlog_failure at a concrete oracle. -/
theorem c7_amended_eventlog_failure_witness :
    (CreateInfrastructure.perform envC7 "I" []).1 =
      .error (.infrastructureCreationError "I" (.otherExc 2)) ∧
    (CreateNode.perform envC7 ndD []).1 =
      .error (.nodeCreationError (some iD) (.otherExc 2)) ∧
    (DropInfrastructure.perform envC7 "I" []).1 =
      .error (.minorInfraProcessorError "I" (.otherExc 2) none) ∧
    (DropNode.perform envC7 iD []).1 =
      .error (.minorInfraProcessorError iD.infra_id (.otherExc 2) (some iD)) := by
  have h := c7_amended_eventlog_failure envC7 "I" ndD iD [] (.otherExc 2) "R"
    (by intro hh; exact PyExn.noConfusion hh) rfl
  exact ⟨h.1 rfl rfl, h.2.1 (by decide) rfl, h.2.2.1 rfl rfl,
         h.2.2.2 rfl rfl rfl⟩

/-- Oracle for the mysql strategy where a configuration key is missing under
node_description.variables. -/
def menvBad1 : MysqlEnv :=
  { node_address := .ok "h", node_reachable := .ok true,
    var_username := none, var_password := some "p", var_dbname := some "d",
    connect := .ok (), close := .ok () }

/-- Oracle for the mysql strategy where the node-address broker lookup
raises. -/
def menvBad2 : MysqlEnv :=
  { node_address := .error (.otherExc 5), node_reachable := .ok true,
    var_username := some "u", var_password := some "p",
    var_dbname := some "d", connect := .ok (), close := .ok () }

/-- Counterexample to C8 as stated: is_ready can raise instead of returning a
boolean — a missing configuration key inside the probe propagates a KeyError,
and a failing broker lookup propagates its error. -/
theorem c8_claim_false :
    MysqlServerSynchStragegy.is_ready menvBad1 =
      .error (.keyError "mysql_dbuser_username") ∧
    MysqlServerSynchStragegy.is_ready menvBad2 = .error (.otherExc 5) := by
  exact ⟨rfl, rfl⟩

/-- C8 as amended: when both broker lookups succeed, all three configuration
keys are present, and any failure of the connect/close probe is a MySQL
error, is_ready returns a boolean and never raises; it reports False when the
node is unreachable or the probe fails, and True only when the node is
reachable and the probe fully succeeds.  Errors outside these conditions
(broker failures, missing keys, non-MySQL probe errors) propagate. -/
theorem c8_amended_mysql_only (env : MysqlEnv) (a : String) (b : Bool)
    (u p d : String)
    (h1 : env.node_address = .ok a) (h2 : env.node_reachable = .ok b)
    (h3 : env.var_username = some u) (h4 : env.var_password = some p)
    (h5 : env.var_dbname = some d)
    (h6 : ∀ e, env.connect = .error e → e.isMysqlError = true)
    (h7 : ∀ e, env.close = .error e → e.isMysqlError = true) :
    ∃ bb, MysqlServerSynchStragegy.is_ready env = .ok bb ∧
      (b = false → bb = false) ∧
      (bb = true → b = true ∧ env.connect = .ok () ∧ env.close = .ok ()) := by
  cases b
  · refine ⟨false, ?_, fun _ => rfl, ?_⟩
    · simp [MysqlServerSynchStragegy.is_ready, h1, h2]
    · intro hh
      exact Bool.noConfusion hh
  · rcases hc : env.connect with ec | uc
    · have hm := h6 ec hc
      refine ⟨false, ?_, ?_, ?_⟩
      · simp [MysqlServerSynchStragegy.is_ready, mysqlTryBody, h1, h2, h3,
              h4, h5, hc, hm]
      · intro hh
        exact Bool.noConfusion hh
      · intro hh
        exact Bool.noConfusion hh
    · cases uc
      rcases hd : env.close with ed | ud
      · have hm := h7 ed hd
        refine ⟨false, ?_, ?_, ?_⟩
        · simp [MysqlServerSynchStragegy.is_ready, mysqlTryBody, h1, h2, h3,
                h4, h5, hc, hd, hm]
        · intro hh
          exact Bool.noConfusion hh
        · intro hh
          exact Bool.noConfusion hh
      · cases ud
        refine ⟨true, ?_, ?_, fun _ => ⟨rfl, rfl, rfl⟩⟩
        · simp [MysqlServerSynchStragegy.is_ready, mysqlTryBody, h1, h2, h3,
                h4, h5, hc, hd]
        · intro hh
          exact Bool.noConfusion hh

/-- Oracle for the mysql strategy where everything succeeds. -/
def menvOk : MysqlEnv :=
  { node_address := .ok "h", node_reachable := .ok true,
    var_username := some "u", var_password := some "p",
    var_dbname := some "d", connect := .ok (), close := .ok () }

/-- Witness for c8_amended_mysql_only at a concrete oracle. -/
theorem c8_amended_mysql_only_witness :
    ∃ bb, MysqlServerSynchStragegy.is_ready menvOk = .ok bb ∧
      (true = false → bb = false) ∧
      (bb = true → true = true ∧ menvOk.connect = .ok () ∧
        menvOk.close = .ok ()) := by
  exact c8_amended_mysql_only menvOk "h" true "u" "p" "d" rfl rfl rfl rfl rfl
    (fun e he => by simp [menvOk] at he) (fun e he => by simp [menvOk] at he)

/-- C5: for a fully successful creation whose resolved definition carries the
generated node id and the owning infra id, performing DropNode on the
returned InstanceData (with successful drop steps) restores the service
composer membership of the owning infrastructure to what it was before the
pair ran, provided the generated node id was not already registered there. -/
theorem c5_create_drop_roundtrip (env : Env) (nd : NodeDescription)
    (c : Composer) (rdef : ResolvedNodeDefinition) (iid addr ipaddr : String)
    (hres : env.resolve_node = .ok rdef)
    (hnid : rdef.node_id = env.fresh_node_id)
    (hinf : rdef.infra_id = nd.infra_id)
    (hreg : env.sc_register_node = .ok ())
    (hcr : env.ch_create_node = .ok iid)
    (huds : env.uds_register_started_node = .ok ())
    (ha : env.ib_get_address = .ok addr)
    (hip : env.ib_get_ip = .ok ipaddr)
    (hw : env.wait_for_node = .ok ())
    (hev : env.ev_node_created = .ok ())
    (hd1 : env.ch_drop_node = .ok ())
    (hd2 : env.sc_drop_node = .ok ())
    (hd3 : env.ev_node_deleted = .ok ())
    (hfresh : ∀ pr ∈ c, ¬(pr.1 = nd.infra_id ∧ pr.2 = env.fresh_node_id)) :
    ∃ i, (CreateNode.perform env nd c).1 = .ok i ∧
      membership (DropNode.perform env i
          (CreateNode.perform env nd c).2.2).2.2 nd.infra_id =
        membership c nd.infra_id := by
  have hall : CreateNode.perform env nd c =
      (.ok ({ initInstance env nd with
          resolved_node_definition := some rdef,
          backend_id := some rdef.backend_id,
          instance_id := some iid }),
       [Ev.resolveNode env.fresh_node_id,
        Ev.scRegisterNode rdef.infra_id rdef.node_id,
        Ev.chCreateNode env.fresh_node_id,
        Ev.udsRegisterStartedNode nd.infra_id nd.name,
        Ev.ibGetResourceAddr, Ev.ibGetResourceIp,
        Ev.waitForNode env.fresh_node_id,
        Ev.evNodeCreated env.fresh_node_id],
       registerC c rdef.infra_id rdef.node_id) := by
    simp [CreateNode.perform, CreateNode.perform_create, initInstance, hres,
          hreg, hcr, huds, ha, hip, hw, hev]
  refine ⟨{ initInstance env nd with
      resolved_node_definition := some rdef,
      backend_id := some rdef.backend_id,
      instance_id := some iid }, ?_, ?_⟩
  · rw [hall]
  · rw [hall]
    have hdrop : (DropNode.perform env ({ initInstance env nd with
        resolved_node_definition := some rdef,
        backend_id := some rdef.backend_id,
        instance_id := some iid })
          (registerC c rdef.infra_id rdef.node_id)).2.2 =
        deregisterC (registerC c rdef.infra_id rdef.node_id) nd.infra_id
          env.fresh_node_id := by
      simp [DropNode.perform, hd1, hd2, hd3, initInstance]
    rw [hdrop, hinf, hnid,
        deregisterC_registerC_fresh c nd.infra_id env.fresh_node_id hfresh]

/-- Witness for c5_create_drop_roundtrip at a concrete oracle with a
pre-existing registration for another node. -/
theorem c5_create_drop_roundtrip_witness :
    (CreateNode.perform envAllOk ndD [("I", "X")]).1 = .ok iD ∧
    membership (DropNode.perform envAllOk iD
        (CreateNode.perform envAllOk ndD [("I", "X")]).2.2).2.2 ndD.infra_id =
      membership [("I", "X")] ndD.infra_id := by
  obtain ⟨i, h1, h2⟩ := c5_create_drop_roundtrip envAllOk ndD [("I", "X")]
    rdefD "VM1" "addr" "ip" rfl rfl rfl rfl rfl rfl rfl rfl rfl rfl rfl rfl
    rfl (by decide)
  have hD : (CreateNode.perform envAllOk ndD [("I", "X")]).1 = .ok iD := by
    decide
  have hi : i = iD := Except.ok.inj (h1.symm.trans hD)
  exact ⟨hD, hi ▸ h2⟩
